import Mathlib

/-!
Formal model of the agent-management controller
(`src/controllers/website/agentController.js`) and the transactional email
service (`src/utils/emailService.js`) of the Expand Machinery
customer-support backend.

The JavaScript handlers are shallowly embedded as pure Lean functions:
the MongoDB `User` collection becomes a list of `UserDoc` records inside a
`Db` state, each Express handler becomes a function from the database and
the request data to a `HandlerOut` (the list of HTTP responses it sends,
the resulting database, and the e-mail calls it makes), and the external
effects (clock, activity logger, Brevo e-mail API, push notifications) are
supplied through an explicit `Env` record.  JavaScript string primitives
used by the controller (`trim`, `split(' ')`, `join(' ')`, `parseInt`,
truthiness, `||` defaulting) are modelled character-exactly below.
-/

/-- JavaScript whitespace, as used by `String.prototype.trim` and by
`parseInt` when skipping leading space (ASCII whitespace, NBSP, the
Unicode space separators, line/paragraph separators and the BOM). -/
def jsIsSpaceChar (c : Char) : Bool :=
  c = ' ' || c = '\t' || c = '\n' || c = '\r' ||
  c.toNat = 11 || c.toNat = 12 || c.toNat = 160 || c.toNat = 0x1680 ||
  (0x2000 ≤ c.toNat && c.toNat ≤ 0x200A) ||
  c.toNat = 0x2028 || c.toNat = 0x2029 || c.toNat = 0x202F ||
  c.toNat = 0x205F || c.toNat = 0x3000 || c.toNat = 0xFEFF

/-- JavaScript `s.trimStart()` on the character list. -/
def jsTrimStartL (l : List Char) : List Char := l.dropWhile jsIsSpaceChar

/-- JavaScript `s.trimEnd()` on the character list. -/
def jsTrimEndL (l : List Char) : List Char :=
  (l.reverse.dropWhile jsIsSpaceChar).reverse

/-- JavaScript `s.trim()` on the character list. -/
def jsTrimL (l : List Char) : List Char := jsTrimEndL (jsTrimStartL l)

/-- JavaScript `String.prototype.trim`. -/
def jsTrim (s : String) : String := String.mk (jsTrimL s.toList)

/-- JavaScript `String.prototype.trimStart`. -/
def jsTrimStart (s : String) : String := String.mk (jsTrimStartL s.toList)

/-- JavaScript `String.prototype.trimEnd`. -/
def jsTrimEnd (s : String) : String := String.mk (jsTrimEndL s.toList)

/-- JavaScript `s.split(' ')` on the character list: splitting on every
single space character, keeping empty segments (`"a  b".split(' ')` is
`["a","","b"]`, `"".split(' ')` is `[""]`). -/
def splitSpL : List Char → List (List Char)
  | [] => [[]]
  | c :: cs =>
    if c = ' ' then [] :: splitSpL cs
    else
      match splitSpL cs with
      | [] => [[c]]
      | r :: rs => (c :: r) :: rs

/-- JavaScript `parts.join(' ')` on character lists: the exact inverse of
`splitSpL` (single space between segments, nothing around them). -/
def joinSpL : List (List Char) → List Char
  | [] => []
  | [x] => x
  | x :: y :: ys => x ++ ' ' :: joinSpL (y :: ys)

/-- JavaScript `s.split(' ')`. -/
def jsSplitSpace (s : String) : List String :=
  (splitSpL s.toList).map String.mk

/-- JavaScript `String.prototype.toLowerCase` restricted to the ASCII
range the ticket statuses live in. -/
def jsToLower (s : String) : String := String.mk (s.toList.map Char.toLower)

/-- JavaScript truthiness of a string: only `''` is falsy. -/
def jsTruthyStr (s : String) : Bool := !(s == "")

/-- JavaScript truthiness of a possibly-`undefined` string. -/
def jsTruthyOptStr : Option String → Bool
  | none => false
  | some s => jsTruthyStr s

/-- JavaScript `x || d` for strings (`''` falls back to the default). -/
def jsOrStr (s d : String) : String := if s = "" then d else s

/-- JavaScript `x || d` where `x` may be `undefined`. -/
def jsOrOptStr (s : Option String) (d : String) : String :=
  match s with
  | none => d
  | some v => jsOrStr v d

/-- Model of `String(x).replace(/\D/g, '')`: keep only the decimal digits. -/
def onlyDigits (s : String) : String :=
  String.mk (s.toList.filter Char.isDigit)

/-- Numeric value of a list of decimal digits. -/
def decDigitsVal (l : List Char) : Nat :=
  l.foldl (fun a c => a * 10 + (c.toNat - 48)) 0

/-- Value of one hexadecimal digit. -/
def hexDigitVal (c : Char) : Nat :=
  if c.isDigit then c.toNat - 48
  else if 'a' ≤ c && c ≤ 'f' then c.toNat - 87
  else c.toNat - 55

/-- Numeric value of a list of hexadecimal digits. -/
def hexDigitsVal (l : List Char) : Nat :=
  l.foldl (fun a c => a * 16 + hexDigitVal c) 0

/-- JavaScript `parseInt(s)` with no radix argument: skip leading
whitespace, read an optional sign, then either a `0x`/`0X` hexadecimal
literal or a run of decimal digits; `none` models `NaN`. -/
def jsParseInt (s : String) : Option Int :=
  let cs := s.toList.dropWhile jsIsSpaceChar
  let sgn : Int := match cs with | '-' :: _ => -1 | _ => 1
  let cs2 := match cs with
    | '-' :: r => r
    | '+' :: r => r
    | _ => cs
  match cs2 with
  | '0' :: c :: r =>
    if c = 'x' || c = 'X' then
      let hs := r.takeWhile fun d => d.isDigit || ('a' ≤ d && d ≤ 'f') || ('A' ≤ d && d ≤ 'F')
      if hs.isEmpty then none else some (sgn * (hexDigitsVal hs : Int))
    else
      some (sgn * (decDigitsVal (('0' :: c :: r).takeWhile Char.isDigit) : Int))
  | _ =>
    let ds := cs2.takeWhile Char.isDigit
    if ds.isEmpty then none else some (sgn * (decDigitsVal ds : Int))

/-- Model of `parseInt(x) || d`: an absent parameter parses to `NaN`, and both
`NaN` and `0` are falsy, so they fall back to the default. -/
def jsParseIntOr (s : Option String) (d : Int) : Int :=
  match s with
  | none => d
  | some str =>
    match jsParseInt str with
    | none => d
    | some n => if n = 0 then d else n

/-- Model of `Math.ceil(a / b)` for a non-negative integer numerator and a nonzero
integer denominator, computed exactly (JavaScript evaluates it in floating
point, which is exact in the ranges the controller produces).  `/` on
`Int` is Euclidean division, which floors for a positive denominator and
ceils for a negative one. -/
def jsMathCeilDiv (a : Nat) (b : Int) : Int :=
  if 0 < b then -((-(a : Int)) / b) else (a : Int) / b

/-- A document of the MongoDB `User` collection, with the fields the
agent controller reads or writes. -/
structure UserDoc where
  _id : Nat
  name : String
  email : String
  password : String
  role : String
  phone : String
  categoryIds : List Nat
  status : String
  isActive : Bool
  isDeleted : Bool
  deletedAt : Option Nat
  createdAt : Nat
deriving Repr, DecidableEq

/-- A document of the `Category` collection (only its name is read). -/
structure CategoryDoc where
  _id : Nat
  name : String
deriving Repr, DecidableEq

/-- The database state: the `User` and `Category` collections, plus the
fresh id `User.create` will assign next. -/
structure Db where
  users : List UserDoc
  categories : List CategoryDoc
  nextId : Nat
deriving Repr, DecidableEq

/-- Result value of `sendEmail`: `{ success: true, data }` or
`{ success: false, error }`. -/
inductive SendResult where
  | success (data : String)
  | failure (error : String)
deriving Repr, DecidableEq

/-- Outcome of an awaited `sendTransacEmail` API call: a fulfilled
promise with its result payload, or a rejected one with its error
message. -/
inductive ApiOutcome where
  | ok (data : String)
  | error (msg : String)
deriving Repr, DecidableEq

/-- Environment of the Brevo e-mail client: the `BREVO_API_KEY` variable
and the outcome of a `sendTransacEmail` API call. -/
structure EmailEnv where
  apiKey : Option String
  apiResult : ApiOutcome
deriving Repr, DecidableEq

/-- A record of one `sendEmail` invocation (the `to` recipient and the
subject; the HTML bodies are opaque presentation strings and are not
modelled). -/
structure EmailMsg where
  sendTo : String
  subject : String
deriving Repr, DecidableEq

/-- External-effect environment of a handler execution: the current time,
whether `logActivity` throws (and with which message), the e-mail client
environment, and whether `sendPushNotification` rejects (push failures
are caught and have no modelled observable effect). -/
structure Env where
  now : Nat
  logFails : Option String
  emailEnv : EmailEnv
  pushFails : Option String
deriving Repr, DecidableEq

/-- Model of `sendEmail` from `src/utils/emailService.js`: builds the Brevo client
(throwing when `BREVO_API_KEY` is missing), performs the API call, and
converts every thrown error into a `{ success: false, error }` result via
its surrounding try/catch.  Recipient/subject/body arguments do not
affect the result value, so only the environment is consumed here; call
sites record the message they pass via `EmailMsg`. -/
def sendEmail (env : EmailEnv) : SendResult :=
  match env.apiKey with
  | none => .failure "BREVO_API_KEY is not defined in environment variables"
  | some _ =>
    match env.apiResult with
    | ApiOutcome.error e => .failure e
    | ApiOutcome.ok d => .success d

/-- Pagination metadata block of the agents-list response. -/
structure Pagination where
  currentPage : Int
  totalPages : Int
  totalAgents : Nat
  hasNextPage : Bool
  hasPrevPage : Bool
  limit : Int
deriving Repr, DecidableEq

/-- Agent payload shape shared by `getAgent` and the rows of
`getAgentsList` (name split back into first/last name). -/
structure AgentData where
  _id : Nat
  firstName : String
  lastName : String
  name : String
  email : String
  phone : String
  role : String
  categoryIds : List Nat
  status : String
  isActive : Bool
  createdAt : Nat
deriving Repr, DecidableEq

/-- Payload of the `createAgent` 201 response (echoes the request's
first/last name; no `isActive` field). -/
structure CreatedData where
  _id : Nat
  firstName : String
  lastName : String
  name : String
  email : String
  phone : String
  role : String
  categoryIds : List Nat
  status : String
  createdAt : Nat
deriving Repr, DecidableEq

/-- Payload of the `updateAgent` success response. -/
structure UpdatedData where
  _id : Nat
  firstName : String
  lastName : String
  name : String
  email : String
  phone : String
  categoryIds : List Nat
  createdAt : Nat
deriving Repr, DecidableEq

/-- A row of the `exportAgents` payload.  The locale-formatted date and
time columns are derived from `createdAt`, whose raw value is kept here
(locale rendering is presentation only). -/
structure ExportRow where
  firstName : String
  lastName : String
  email : String
  phone : String
  status : String
  departments : String
  createdAt : Nat
deriving Repr, DecidableEq

/-- The `data` part of a JSON response body. -/
inductive RespData where
  | empty
  | created (d : CreatedData)
  | agent (d : AgentData)
  | updated (d : UpdatedData)
  | list (p : Pagination) (rows : List AgentData)
  | user (u : UserDoc)
  | cats (cs : List CategoryDoc)
  | export (count : Nat) (rows : List ExportRow)
deriving Repr, DecidableEq

/-- One HTTP response: status code, the optional `success` and `message`
JSON fields, and the data payload.  `res.json(x)` without `.status(...)`
sends status 200. -/
structure Response where
  status : Nat
  success : Option Bool
  message : Option String
  data : RespData
deriving Repr, DecidableEq

/-- Observable outcome of one handler execution: the responses sent (in
order), the resulting database, and the `sendEmail` calls made. -/
structure HandlerOut where
  responses : List Response
  db : Db
  emailCalls : List EmailMsg
deriving Repr, DecidableEq

/-- Body of a `createAgent` request.  `phone`, `password` and
`categoryId` may be absent (`undefined`). -/
structure CreateReq where
  firstName : String
  lastName : String
  email : String
  phone : Option String
  password : Option String
  categoryId : Option (List Nat)
deriving Repr, DecidableEq

/-- Body of an `updateAgent` request: every field may be absent. -/
structure UpdateReq where
  firstName : Option String
  lastName : Option String
  email : Option String
  phone : Option String
  password : Option String
  categoryId : Option (List Nat)
deriving Repr, DecidableEq

/-- Query string of a `getAgentsList` request. -/
structure ListQuery where
  page : Option String
  limit : Option String
  search : Option String
deriving Repr, DecidableEq

/-- The descending `createdAt` order used by
`.sort({ createdAt: -1 })`. -/
def createdDescRel (a b : UserDoc) : Prop := b.createdAt ≤ a.createdAt

instance : DecidableRel createdDescRel := fun a b =>
  inferInstanceAs (Decidable (b.createdAt ≤ a.createdAt))

instance : IsTotal UserDoc createdDescRel :=
  ⟨fun a b => Nat.le_total b.createdAt a.createdAt⟩

instance : IsTrans UserDoc createdDescRel :=
  ⟨fun _ _ _ h1 h2 => Nat.le_trans h2 h1⟩

/-- Model of `.sort({ createdAt: -1 })` on a query result. -/
def sortByCreatedAtDesc (l : List UserDoc) : List UserDoc :=
  l.insertionSort createdDescRel

/-- Model of Mongo's `.skip(n)` for the non-negative skips the
controller produces on its specified inputs. -/
def mongoSkip (n : Int) (l : List UserDoc) : List UserDoc := l.drop n.toNat

/-- Model of Mongo's `.limit(n)` for the positive limits the controller
produces on its specified inputs. -/
def mongoLimit (n : Int) (l : List UserDoc) : List UserDoc := l.take n.toNat

/-- The phone value `createAgent` looks up when checking for duplicates:
digits only, prefixed with `+1` when exactly 10 digits remain, otherwise
the raw input. -/
def normalizePhoneLookup (phone : String) : String :=
  let phoneDigits := onlyDigits phone
  if phoneDigits.length = 10 then "+1" ++ phoneDigits else phone

/-- The first/last-name recovery and field projection shared verbatim by
`getAgent`, the rows of `getAgentsList`, and `updateAgent`'s response:
`nameParts = name.split(' ')`, `firstName = nameParts[0] || ''`,
`lastName = nameParts.slice(1).join(' ') || ''`. -/
def toAgentData (a : UserDoc) : AgentData :=
  let nameParts := splitSpL a.name.toList
  { _id := a._id
    firstName := String.mk (nameParts.headD [])
    lastName := String.mk (joinSpL (nameParts.drop 1))
    name := a.name
    email := a.email
    phone := jsOrStr a.phone ""
    role := a.role
    categoryIds := a.categoryIds
    status := jsOrStr a.status "offline"
    isActive := a.isActive
    createdAt := a.createdAt }

/-- The `searchQuery` filter of `getAgentsList`: role `agent`,
`isDeleted: false`, and — when a search string is present — a
case-insensitive `$regex` `$or` over name, e-mail and phone.  `m` is the
Mongo regex engine, `m pattern field = true` meaning the field matches
the pattern with the `i` option. -/
def agentsListSelect (m : String → String → Bool) (db : Db)
    (search : String) : List UserDoc :=
  if search ≠ "" then
    db.users.filter fun u =>
      u.role == "agent" && u.isDeleted == false &&
        (m search u.name || m search u.email || m search u.phone)
  else
    db.users.filter fun u => u.role == "agent" && u.isDeleted == false

/-- The `searchQuery` filter of `exportAgents`: role `agent` and the
same optional `$regex` `$or` — with no `isDeleted` condition. -/
def exportAgentsSelect (m : String → String → Bool) (db : Db)
    (search : String) : List UserDoc :=
  if search ≠ "" then
    db.users.filter fun u =>
      u.role == "agent" &&
        (m search u.name || m search u.email || m search u.phone)
  else
    db.users.filter fun u => u.role == "agent"

/-- Model of `agent.save()`: write the (possibly modified) document back over the
stored document carrying the same `_id`. -/
def Db.saveUser (db : Db) (a : UserDoc) : Db :=
  { db with users := db.users.map fun u => if u._id == a._id then a else u }

/-- Row formatting of `exportAgents`, including the populated department
names (`populate('categoryIds', 'name')` resolves each id against the
`Category` collection, dropping ids with no matching document). -/
def toExportRow (db : Db) (a : UserDoc) : ExportRow :=
  let nameParts := splitSpL a.name.toList
  let categories := String.intercalate ", "
    (a.categoryIds.filterMap fun i =>
      (db.categories.find? fun c => c._id == i).map (·.name))
  { firstName := String.mk (nameParts.headD [])
    lastName := String.mk (joinSpL (nameParts.drop 1))
    email := a.email
    phone := jsOrStr a.phone "N/A"
    status := jsOrStr a.status "offline"
    departments := jsOrStr categories ""
    createdAt := a.createdAt }

/-- The document `User.create` inserts on `createAgent`'s success path
(the controller passes the digits-only phone and lets the model hook
normalize it further; the hook file is not part of this controller). -/
def createdAgentDoc (env : Env) (db : Db) (req : CreateReq) : UserDoc :=
  { _id := db.nextId
    name := jsTrim (req.firstName ++ " " ++ req.lastName)
    email := req.email
    password := req.password.getD ""
    role := "agent"
    phone := if jsTruthyOptStr req.phone then onlyDigits (req.phone.getD "") else ""
    categoryIds := req.categoryId.getD []
    status := "offline"
    isActive := true
    isDeleted := false
    deletedAt := none
    createdAt := env.now }

/-- Model of `createAgent` (`agentController.js` lines 8–141).  Control flow:
duplicate-email check, duplicate-phone check (only when a phone is
supplied), password-presence check, `User.create`, `logActivity` (whose
failure reaches the outer catch and yields the 500 response), then the
welcome e-mail and the push notification — each inside its own
try/catch — and finally the 201 response. -/
def createAgent (env : Env) (db : Db) (req : CreateReq) : HandlerOut :=
  match db.users.find? fun u => u.email == req.email with
  | some _ =>
    { responses := [{ status := 400, success := none
                      message := some "User with this email already exists"
                      data := .empty }]
      db := db, emailCalls := [] }
  | none =>
    let dupPhone :=
      if jsTruthyOptStr req.phone then
        (db.users.find? fun u =>
          u.phone == normalizePhoneLookup (req.phone.getD "")).isSome
      else false
    if dupPhone then
      { responses := [{ status := 400, success := none
                        message := some "User with this phone number already exists"
                        data := .empty }]
        db := db, emailCalls := [] }
    else if !jsTruthyOptStr req.password then
      { responses := [{ status := 400, success := none
                        message := some "Password is required"
                        data := .empty }]
        db := db, emailCalls := [] }
    else
      let agent : UserDoc := createdAgentDoc env db req
      let db1 : Db := { db with users := db.users ++ [agent], nextId := db.nextId + 1 }
      match env.logFails with
      | some m =>
        { responses := [{ status := 500, success := some false
                          message := some (jsOrStr m "Server error")
                          data := .empty }]
          db := db1, emailCalls := [] }
      | none =>
        let emailCall : EmailMsg :=
          { sendTo := req.email
            subject := "Welcome to Expand Machinery - Agent Account Created" }
        { responses := [{ status := 201, success := some true
                          message := some "Agent created successfully"
                          data := .created
                            { _id := agent._id
                              firstName := req.firstName
                              lastName := req.lastName
                              name := agent.name
                              email := agent.email
                              phone := jsOrOptStr req.phone ""
                              role := agent.role
                              categoryIds := agent.categoryIds
                              status := jsOrStr agent.status "offline"
                              createdAt := agent.createdAt }}]
          db := db1, emailCalls := [emailCall] }

/-- Model of `getAgentsList` (`agentController.js` lines 143–209). -/
def getAgentsList (m : String → String → Bool) (db : Db)
    (q : ListQuery) : HandlerOut :=
  let page := jsParseIntOr q.page 1
  let limit := jsParseIntOr q.limit 10
  let skip := (page - 1) * limit
  let search := jsOrOptStr q.search ""
  let selected := agentsListSelect m db search
  let totalAgents := selected.length
  let totalPages := jsMathCeilDiv totalAgents limit
  let agents := mongoLimit limit (mongoSkip skip (sortByCreatedAtDesc selected))
  { responses := [{ status := 200, success := some true
                    message := some "Agents list fetched successfully"
                    data := .list
                      { currentPage := page
                        totalPages := totalPages
                        totalAgents := totalAgents
                        hasNextPage := page < totalPages
                        hasPrevPage := 1 < page
                        limit := limit }
                      (agents.map toAgentData) }]
    db := db, emailCalls := [] }

/-- Model of `getAgent` (`agentController.js` lines 211–246):
`findOne({ _id: id, role: 'agent' })`, then either the 404 or the
projected agent payload. -/
def getAgent (db : Db) (id : Nat) : HandlerOut :=
  match db.users.find? fun u => u._id == id && u.role == "agent" with
  | none =>
    { responses := [{ status := 404, success := some false
                      message := some "Agent not found", data := .empty }]
      db := db, emailCalls := [] }
  | some agent =>
    { responses := [{ status := 200, success := some true
                      message := none, data := .agent (toAgentData agent) }]
      db := db, emailCalls := [] }

/-- Model of `updateAgent` (`agentController.js` lines 248–341): find by id and
role, conditionally overwrite each field, save, log (a throwing logger
reaches the outer catch after the save persisted), push-notify inside a
try/catch, then respond. -/
def updateAgent (env : Env) (db : Db) (id : Nat) (req : UpdateReq) : HandlerOut :=
  match db.users.find? fun u => u._id == id && u.role == "agent" with
  | none =>
    { responses := [{ status := 404, success := some false
                      message := some "Agent not found", data := .empty }]
      db := db, emailCalls := [] }
  | some agent =>
    let a1 :=
      if jsTruthyOptStr req.firstName && jsTruthyOptStr req.lastName then
        { agent with name := jsTrim (req.firstName.getD "" ++ " " ++ req.lastName.getD "") }
      else agent
    let a2 := if jsTruthyOptStr req.email then { a1 with email := req.email.getD "" } else a1
    let a3 :=
      match req.phone with
      | none => a2
      | some p => { a2 with phone := if jsTruthyStr p then onlyDigits p else "" }
    let a4 :=
      if jsTruthyOptStr req.password && jsTrim (req.password.getD "") ≠ "" then
        { a3 with password := req.password.getD "" }
      else a3
    let a5 :=
      match req.categoryId with
      | none => a4
      | some cs => { a4 with categoryIds := cs }
    let db1 := db.saveUser a5
    match env.logFails with
    | some m =>
      { responses := [{ status := 500, success := some false
                        message := some (jsOrStr m "Server error")
                        data := .empty }]
        db := db1, emailCalls := [] }
    | none =>
      let nameParts := splitSpL a5.name.toList
      { responses := [{ status := 200, success := some true
                        message := some "Agent updated successfully"
                        data := .updated
                          { _id := a5._id
                            firstName := String.mk (nameParts.headD [])
                            lastName := String.mk (joinSpL (nameParts.drop 1))
                            name := a5.name
                            email := a5.email
                            phone := jsOrStr a5.phone ""
                            categoryIds := a5.categoryIds
                            createdAt := a5.createdAt }}]
        db := db1, emailCalls := [] }

/-- Model of `deleteAgent` (`agentController.js` lines 343–396): find by id and
role, reject an already soft-deleted agent, otherwise set `isDeleted`
and `deletedAt` and save; the notification and activity log run after
the save (the catch for this handler responds with the fixed message
`Server error`). -/
def deleteAgent (env : Env) (db : Db) (id : Nat) : HandlerOut :=
  match db.users.find? fun u => u._id == id && u.role == "agent" with
  | none =>
    { responses := [{ status := 404, success := some false
                      message := some "Agent not found", data := .empty }]
      db := db, emailCalls := [] }
  | some agent =>
    if agent.isDeleted then
      { responses := [{ status := 400, success := none
                        message := some "Agent is already deleted", data := .empty }]
        db := db, emailCalls := [] }
    else
      let a1 := { agent with isDeleted := true, deletedAt := some env.now }
      let db1 := db.saveUser a1
      match env.logFails with
      | some _ =>
        { responses := [{ status := 500, success := some false
                          message := some "Server error", data := .empty }]
          db := db1, emailCalls := [] }
      | none =>
        { responses := [{ status := 200, success := some true
                          message := some "Agent deleted successfully", data := .empty }]
          db := db1, emailCalls := [] }

/-- Model of `getCategoryList` (`agentController.js` lines 398–412). -/
def getCategoryList (db : Db) : HandlerOut :=
  { responses := [{ status := 200, success := some true
                    message := none, data := .cats db.categories }]
    db := db, emailCalls := [] }

/-- Model of `toggleAgentStatus` (`agentController.js` lines 414–459):
`findById(id)` with no role filter, an explicit role check, then the
`isActive` flip and save. -/
def toggleAgentStatus (env : Env) (db : Db) (id : Nat) : HandlerOut :=
  match db.users.find? fun u => u._id == id with
  | none =>
    { responses := [{ status := 404, success := some false
                      message := some "Agent not found", data := .empty }]
      db := db, emailCalls := [] }
  | some agent =>
    if agent.role ≠ "agent" then
      { responses := [{ status := 400, success := some false
                        message := some "User is not an agent", data := .empty }]
        db := db, emailCalls := [] }
    else
      let a1 := { agent with isActive := !agent.isActive }
      let db1 := db.saveUser a1
      let action := if a1.isActive then "activated" else "deactivated"
      match env.logFails with
      | some _ =>
        { responses := [{ status := 500, success := some false
                          message := some "Server error", data := .empty }]
          db := db1, emailCalls := [] }
      | none =>
        { responses := [{ status := 200, success := some true
                          message := some ("Agent " ++ action ++ " successfully")
                          data := .user a1 }]
          db := db1, emailCalls := [] }

/-- Model of `exportAgents` (`agentController.js` lines 461–515): the optional
search narrows the role-`agent` query, with no pagination and no
`isDeleted` filter. -/
def exportAgents (m : String → String → Bool) (db : Db)
    (search : Option String) : HandlerOut :=
  let s := jsOrOptStr search ""
  let selected := exportAgentsSelect m db s
  let rows := (sortByCreatedAtDesc selected).map (toExportRow db)
  { responses := [{ status := 200, success := some true
                    message := some "Agents data exported successfully"
                    data := .export rows.length rows }]
    db := db, emailCalls := [] }

/-- The relevant data of a ticket for `sendTicketUpdateStatusEmail`. -/
structure TicketDoc where
  status : String
  ticketNumber : Option String
  _id : String
deriving Repr, DecidableEq

/-- The relevant data of a customer for `sendTicketUpdateStatusEmail`. -/
structure CustomerDoc where
  name : Option String
  email : String
deriving Repr, DecidableEq

/-- One entry of the `results` array returned by
`sendTicketUpdateStatusEmail`. -/
structure TicketEmailResultEntry where
  type : String
  result : SendResult
deriving Repr, DecidableEq

/-- Output of `sendTicketUpdateStatusEmail`: the `results` array it
returns and the `sendEmail` calls it made. -/
structure TicketEmailOut where
  results : List TicketEmailResultEntry
  emailCalls : List EmailMsg
deriving Repr, DecidableEq

/-- The subject chosen by `sendTicketUpdateStatusEmail`'s status switch,
applied to the already-lowercased status. -/
def ticketStatusSubject (status ticketNumber : String) : String :=
  if status = "reopen" ∨ status = "reopened" then
    "Ticket Reopened - " ++ ticketNumber
  else if status = "pending" then "Ticket Pending - " ++ ticketNumber
  else if status = "in_progress" then "Ticket In Progress - " ++ ticketNumber
  else if status = "resolved" then "Ticket Resolved - " ++ ticketNumber
  else if status = "closed" then "Ticket Closed - " ++ ticketNumber
  else "Ticket Status Updated - " ++ ticketNumber

/-- Model of `sendTicketUpdateStatusEmail` (`emailService.js` lines 599–921):
lowercase the ticket status, pick the subject (and the matching HTML
template, not modelled) by the status switch, send exactly one e-mail to
the customer, and return a one-entry `results` array. -/
def sendTicketUpdateStatusEmail (env : EmailEnv) (ticket : TicketDoc)
    (customer : CustomerDoc) : TicketEmailOut :=
  let status := jsToLower ticket.status
  let ticketNumber := jsOrOptStr ticket.ticketNumber ticket._id
  let subject := ticketStatusSubject status ticketNumber
  let customerResult := sendEmail env
  { results := [{ type := "customer", result := customerResult }]
    emailCalls := [{ sendTo := customer.email, subject := subject }] }

/-! ### Concrete sample data for the closed instances below -/

/-- A working e-mail environment. -/
def sampleEmailEnv : EmailEnv := { apiKey := some "key", apiResult := .ok "accepted" }

/-- A benign effect environment (logger and push both succeed). -/
def sampleEnv : Env :=
  { now := 5, logFails := none, emailEnv := sampleEmailEnv, pushFails := none }

/-- A stored non-agent user. -/
def sampleUser1 : UserDoc :=
  { _id := 1, name := "Sam Customer", email := "sam@x.com", password := "pw"
    role := "user", phone := "+14155550100", categoryIds := [], status := "online"
    isActive := true, isDeleted := false, deletedAt := none, createdAt := 3 }

/-- A stored agent. -/
def sampleAgent : UserDoc :=
  { _id := 2, name := "Ann Agent", email := "ann@x.com", password := "pw2"
    role := "agent", phone := "+14155550101", categoryIds := [4], status := "offline"
    isActive := true, isDeleted := false, deletedAt := none, createdAt := 4 }

/-- A small database with one non-agent and one agent. -/
def sampleDb : Db :=
  { users := [sampleUser1, sampleAgent]
    categories := [{ _id := 4, name := "Machines" }], nextId := 10 }

/-- An update request leaving every field absent. -/
def sampleUpdateReq : UpdateReq :=
  { firstName := none, lastName := none, email := none, phone := none
    password := none, categoryId := none }

/-- A well-formed creation request. -/
def sampleCreateReq : CreateReq :=
  { firstName := "New", lastName := "Agent", email := "new@x.com"
    phone := some "4155550102", password := some "secret", categoryId := none }

/-- An empty database. -/
def emptyDb : Db := { users := [], categories := [], nextId := 0 }

/-! ### Theorems -/

/-- C10: every handler exported by the agent controller sends exactly one
HTTP response on every execution path. -/
theorem C10_single_shot_response
    (env : Env) (db : Db) (creq : CreateReq) (m : String → String → Bool)
    (q : ListQuery) (id : Nat) (ureq : UpdateReq) (search : Option String) :
    (createAgent env db creq).responses.length = 1 ∧
    (getAgentsList m db q).responses.length = 1 ∧
    (getAgent db id).responses.length = 1 ∧
    (updateAgent env db id ureq).responses.length = 1 ∧
    (deleteAgent env db id).responses.length = 1 ∧
    (getCategoryList db).responses.length = 1 ∧
    (toggleAgentStatus env db id).responses.length = 1 ∧
    (exportAgents m db search).responses.length = 1 := by
  refine ⟨?_, ?_, ?_, ?_, ?_, ?_, ?_, ?_⟩
  · unfold createAgent
    dsimp only
    repeat' split
    all_goals rfl
  · rfl
  · unfold getAgent
    repeat' split
    all_goals rfl
  · unfold updateAgent
    dsimp only
    repeat' split
    all_goals rfl
  · unfold deleteAgent
    dsimp only
    repeat' split
    all_goals rfl
  · rfl
  · unfold toggleAgentStatus
    dsimp only
    repeat' split
    all_goals rfl
  · rfl

/-- C1: every user document `createAgent` adds has role `agent` and
status `offline`; `getAgent`, `updateAgent` and `deleteAgent` answer 404
`Agent not found` (changing nothing) for any id that no stored agent
carries; and `toggleAgentStatus`, which looks the user up by id alone,
answers 400 `User is not an agent` for an existing non-agent user. -/
theorem C1_agent_role_invariant :
    (∀ (env : Env) (db : Db) (req : CreateReq),
      ∀ u ∈ (createAgent env db req).db.users,
        u ∈ db.users ∨ (u.role = "agent" ∧ u.status = "offline")) ∧
    (∀ (env : Env) (db : Db) (id : Nat) (ureq : UpdateReq),
      (∀ u ∈ db.users, ¬(u._id = id ∧ u.role = "agent")) →
        (getAgent db id).responses =
          [{ status := 404, success := some false
             message := some "Agent not found", data := .empty }] ∧
        (updateAgent env db id ureq).responses =
          [{ status := 404, success := some false
             message := some "Agent not found", data := .empty }] ∧
        (updateAgent env db id ureq).db = db ∧
        (deleteAgent env db id).responses =
          [{ status := 404, success := some false
             message := some "Agent not found", data := .empty }] ∧
        (deleteAgent env db id).db = db) ∧
    (∀ (env : Env) (db : Db) (id : Nat) (u : UserDoc),
      db.users.find? (fun v => v._id == id) = some u → u.role ≠ "agent" →
        (toggleAgentStatus env db id).responses =
          [{ status := 400, success := some false
             message := some "User is not an agent", data := .empty }] ∧
        (toggleAgentStatus env db id).db = db) := by
  refine ⟨?_, ?_, ?_⟩
  · intro env db req u
    unfold createAgent
    dsimp only
    repeat' split
    all_goals intro hu
    all_goals
      first
        | exact Or.inl hu
        | (rcases List.mem_append.mp hu with h | h
           · exact Or.inl h
           · simp only [List.mem_singleton] at h
             subst h
             exact Or.inr ⟨rfl, rfl⟩)
  · intro env db id ureq hno
    have hfind : db.users.find? (fun u => u._id == id && u.role == "agent") = none := by
      refine List.find?_eq_none.mpr fun x hx => ?_
      simpa using hno x hx
    exact ⟨by simp [getAgent, hfind], by simp [updateAgent, hfind],
           by simp [updateAgent, hfind], by simp [deleteAgent, hfind],
           by simp [deleteAgent, hfind]⟩
  · intro env db id u hfind hrole
    constructor
    · simp [toggleAgentStatus, hfind, hrole]
    · simp [toggleAgentStatus, hfind, hrole]

/-- Closed instance of `C1_agent_role_invariant`: in the sample database,
id 99 matches no agent and id 1 belongs to a non-agent user. -/
theorem C1_agent_role_invariant_witness :
    ((getAgent sampleDb 99).responses =
      [{ status := 404, success := some false
         message := some "Agent not found", data := .empty }]) ∧
    ((toggleAgentStatus sampleEnv sampleDb 1).responses =
      [{ status := 400, success := some false
         message := some "User is not an agent", data := .empty }]) ∧
    ((createAgent sampleEnv sampleDb sampleCreateReq).db.users.getLast?.elim False
      (fun u => u ∈ sampleDb.users ∨ (u.role = "agent" ∧ u.status = "offline"))) := by
  refine ⟨?_, ?_, ?_⟩
  · exact (C1_agent_role_invariant.2.1 sampleEnv sampleDb 99 sampleUpdateReq
      (by decide)).1
  · exact (C1_agent_role_invariant.2.2 sampleEnv sampleDb 1 sampleUser1
      (by decide) (by decide)).1
  · have h := C1_agent_role_invariant.1 sampleEnv sampleDb sampleCreateReq
    exact h _ (by decide)

/-- C2: `createAgent` rejects a duplicate e-mail with 400
`User with this email already exists`; otherwise a supplied phone whose
normalization is already stored is rejected with 400
`User with this phone number already exists`; otherwise a missing
password is rejected with 400 `Password is required`; in each case no
user document is created.  The first two conjuncts assume nothing about
the password and the first assumes nothing about the phone, which is the
check ordering. -/
theorem C2_createAgent_validation (env : Env) (db : Db) (req : CreateReq) :
    ((∃ u ∈ db.users, u.email = req.email) →
      (createAgent env db req).responses =
        [{ status := 400, success := none
           message := some "User with this email already exists", data := .empty }] ∧
      (createAgent env db req).db = db) ∧
    ((∀ u ∈ db.users, u.email ≠ req.email) →
     jsTruthyOptStr req.phone = true →
     (∃ u ∈ db.users, u.phone = normalizePhoneLookup (req.phone.getD "")) →
      (createAgent env db req).responses =
        [{ status := 400, success := none
           message := some "User with this phone number already exists", data := .empty }] ∧
      (createAgent env db req).db = db) ∧
    ((∀ u ∈ db.users, u.email ≠ req.email) →
     (jsTruthyOptStr req.phone = true →
       ∀ u ∈ db.users, u.phone ≠ normalizePhoneLookup (req.phone.getD "")) →
     jsTruthyOptStr req.password = false →
      (createAgent env db req).responses =
        [{ status := 400, success := none
           message := some "Password is required", data := .empty }] ∧
      (createAgent env db req).db = db) := by
  refine ⟨?_, ?_, ?_⟩
  · intro hex
    have hsome : (db.users.find? fun u => u.email == req.email).isSome := by
      refine List.find?_isSome.mpr ?_
      obtain ⟨u, hu, he⟩ := hex
      exact ⟨u, hu, by simpa using he⟩
    obtain ⟨w, hw⟩ := Option.isSome_iff_exists.mp hsome
    constructor <;> simp [createAgent, hw]
  · intro hne hph hex
    have hfe : (db.users.find? fun u => u.email == req.email) = none := by
      refine List.find?_eq_none.mpr fun x hx => ?_
      simpa using hne x hx
    have hsome : (db.users.find? fun u =>
        u.phone == normalizePhoneLookup (req.phone.getD "")).isSome := by
      refine List.find?_isSome.mpr ?_
      obtain ⟨u, hu, he⟩ := hex
      exact ⟨u, hu, by simpa using he⟩
    constructor <;> simp [createAgent, hfe, hph, hsome]
  · intro hne hph hpw
    have hfe : (db.users.find? fun u => u.email == req.email) = none := by
      refine List.find?_eq_none.mpr fun x hx => ?_
      simpa using hne x hx
    have hdup : (if jsTruthyOptStr req.phone then
        (db.users.find? fun u =>
          u.phone == normalizePhoneLookup (req.phone.getD "")).isSome
      else false) = false := by
      by_cases h : jsTruthyOptStr req.phone = true
      · have : (db.users.find? fun u =>
            u.phone == normalizePhoneLookup (req.phone.getD "")) = none := by
          refine List.find?_eq_none.mpr fun x hx => ?_
          simpa using hph h x hx
        simp [h, this]
      · simp [Bool.eq_false_iff.mpr h]
    constructor <;> simp [createAgent, hfe, hdup, hpw]

/-- Closed instance of `C2_createAgent_validation`: re-creating the
stored agent's e-mail, re-using the stored agent's phone, and omitting
the password each produce the expected 400 without touching the
database. -/
theorem C2_createAgent_validation_witness :
    ((createAgent sampleEnv sampleDb
        { sampleCreateReq with email := "ann@x.com" }).responses =
      [{ status := 400, success := none
         message := some "User with this email already exists", data := .empty }]) ∧
    ((createAgent sampleEnv sampleDb
        { sampleCreateReq with phone := some "(415) 555-0101" }).responses =
      [{ status := 400, success := none
         message := some "User with this phone number already exists", data := .empty }]) ∧
    ((createAgent sampleEnv sampleDb
        { sampleCreateReq with password := none }).responses =
      [{ status := 400, success := none
         message := some "Password is required", data := .empty }]) ∧
    (createAgent sampleEnv sampleDb { sampleCreateReq with password := none }).db
      = sampleDb := by
  refine ⟨?_, ?_, ?_, ?_⟩
  · exact ((C2_createAgent_validation sampleEnv sampleDb
      { sampleCreateReq with email := "ann@x.com" }).1 (by decide)).1
  · exact ((C2_createAgent_validation sampleEnv sampleDb
      { sampleCreateReq with phone := some "(415) 555-0101" }).2.1
      (by decide) (by decide) (by decide)).1
  · exact ((C2_createAgent_validation sampleEnv sampleDb
      { sampleCreateReq with password := none }).2.2
      (by decide) (by decide) (by decide)).1
  · exact ((C2_createAgent_validation sampleEnv sampleDb
      { sampleCreateReq with password := none }).2.2
      (by decide) (by decide) (by decide)).2

/-- After saving a modified document back over the one it was found as
(ids being unique), a `findOne` with the same id-plus-role query finds
exactly the modified document, provided it still satisfies the query. -/
theorem find?_after_save (users : List UserDoc) (id : Nat) (a a1 : UserDoc)
    (hfind : users.find? (fun u => u._id == id && u.role == "agent") = some a)
    (hid : a1._id = a._id) (hrole : a1.role = "agent")
    (huniq : (users.map (·._id)).Nodup) :
    (users.map fun u => if u._id == a._id then a1 else u).find?
      (fun u => u._id == id && u.role == "agent") = some a1 := by
  have hpa := List.find?_some hfind
  simp only [Bool.and_eq_true, beq_iff_eq] at hpa
  induction users with
  | nil => simp at hfind
  | cons x xs ih =>
    rw [List.map_cons, List.nodup_cons] at huniq
    obtain ⟨hxnot, hnd⟩ := huniq
    by_cases hx : (x._id == id && x.role == "agent") = true
    · rw [List.find?_cons] at hfind
      simp only [hx] at hfind
      have hxa : x = a := by simpa using hfind
      subst hxa
      have hfx : (if x._id == x._id then a1 else x) = a1 := by simp
      simp only [List.map_cons, hfx]
      rw [List.find?_cons]
      simp [hid, hpa.1, hrole]
    · have hxf : (x._id == id && x.role == "agent") = false := by
        simpa using hx
      rw [List.find?_cons] at hfind
      simp only [hxf] at hfind
      have hmem : a ∈ xs := List.mem_of_find?_eq_some hfind
      have hxne : ¬ x._id == a._id := by
        intro h
        exact hxnot ((beq_iff_eq.mp h) ▸ List.mem_map_of_mem (·._id) hmem)
      have hfx : (if x._id == a._id then a1 else x) = x := by
        simp [Bool.eq_false_iff.mpr hxne]
      simp only [List.map_cons, hfx]
      rw [List.find?_cons]
      simp only [hxf]
      exact ih hfind hnd

/-- C7: deleting a stored, not-yet-deleted agent rewrites exactly that
document with `isDeleted := true` and `deletedAt := now`, keeping every
other field and every other document; a second `deleteAgent` on the same
id answers 400 `Agent is already deleted` and changes nothing. -/
theorem C7_deleteAgent_soft_delete_frame (env env2 : Env) (db : Db) (id : Nat)
    (a : UserDoc)
    (hfind : db.users.find? (fun u => u._id == id && u.role == "agent") = some a)
    (hnd : a.isDeleted = false)
    (huniq : (db.users.map (·._id)).Nodup) :
    (deleteAgent env db id).db.users =
      db.users.map (fun u => if u._id == a._id then
        { a with isDeleted := true, deletedAt := some env.now } else u) ∧
    (deleteAgent env db id).db.categories = db.categories ∧
    (deleteAgent env db id).db.nextId = db.nextId ∧
    (env.logFails = none →
      (deleteAgent env db id).responses =
        [{ status := 200, success := some true
           message := some "Agent deleted successfully", data := .empty }]) ∧
    (deleteAgent env2 (deleteAgent env db id).db id).responses =
      [{ status := 400, success := none
         message := some "Agent is already deleted", data := .empty }] ∧
    (deleteAgent env2 (deleteAgent env db id).db id).db =
      (deleteAgent env db id).db := by
  have hrole : a.role = "agent" := by
    have := List.find?_some hfind
    simp only [Bool.and_eq_true, beq_iff_eq] at this
    exact this.2
  have hdb : (deleteAgent env db id).db =
      db.saveUser { a with isDeleted := true, deletedAt := some env.now } := by
    cases h : env.logFails <;> simp [deleteAgent, hfind, hnd, h, Db.saveUser]
  have hfind2 : (deleteAgent env db id).db.users.find?
      (fun u => u._id == id && u.role == "agent") =
      some { a with isDeleted := true, deletedAt := some env.now } := by
    rw [hdb]
    exact find?_after_save db.users id a _ hfind rfl hrole huniq
  have h2 : ∀ dbx : Db, dbx.users.find?
      (fun u => u._id == id && u.role == "agent") =
        some { a with isDeleted := true, deletedAt := some env.now } →
      (deleteAgent env2 dbx id).responses =
        [{ status := 400, success := none
           message := some "Agent is already deleted", data := .empty }] ∧
      (deleteAgent env2 dbx id).db = dbx := by
    intro dbx hf
    constructor <;> simp [deleteAgent, hf]
  refine ⟨?_, ?_, ?_, ?_, (h2 _ hfind2).1, (h2 _ hfind2).2⟩
  · rw [hdb]; rfl
  · rw [hdb]; rfl
  · rw [hdb]; rfl
  · intro h
    simp [deleteAgent, hfind, hnd, h]

/-- Closed instance of `C7_deleteAgent_soft_delete_frame` on the sample
database (agent id 2, time 5). -/
theorem C7_deleteAgent_soft_delete_frame_witness :
    ((deleteAgent sampleEnv sampleDb 2).db.users =
      [sampleUser1, { sampleAgent with isDeleted := true, deletedAt := some 5 }]) ∧
    ((deleteAgent sampleEnv sampleDb 2).responses =
      [{ status := 200, success := some true
         message := some "Agent deleted successfully", data := .empty }]) ∧
    ((deleteAgent sampleEnv (deleteAgent sampleEnv sampleDb 2).db 2).responses =
      [{ status := 400, success := none
         message := some "Agent is already deleted", data := .empty }]) := by
  have h := C7_deleteAgent_soft_delete_frame sampleEnv sampleEnv sampleDb 2
    sampleAgent (by decide) (by decide) (by decide)
  exact ⟨h.1.trans (by decide), h.2.2.2.1 rfl, h.2.2.2.2.1⟩

/-- C6: `sendEmail` always returns a success or failure value — in
particular a missing `BREVO_API_KEY` becomes a failure result, not an
exception — and `createAgent`, whose e-mail and push steps sit in their
own try/catch blocks, answers 201 `Agent created successfully` for every
e-mail-environment and push outcome whenever validation passes and the
logger is benign. -/
theorem C6_sendEmail_total_create_resilient :
    (∀ env : EmailEnv, env.apiKey = none →
      sendEmail env =
        .failure "BREVO_API_KEY is not defined in environment variables") ∧
    (∀ env : EmailEnv,
      (∃ d, sendEmail env = .success d) ∨ (∃ e, sendEmail env = .failure e)) ∧
    (∀ (env : Env) (db : Db) (req : CreateReq),
      env.logFails = none →
      (∀ u ∈ db.users, u.email ≠ req.email) →
      (jsTruthyOptStr req.phone = true →
        ∀ u ∈ db.users, u.phone ≠ normalizePhoneLookup (req.phone.getD "")) →
      jsTruthyOptStr req.password = true →
      ∃ d, (createAgent env db req).responses =
        [{ status := 201, success := some true
           message := some "Agent created successfully", data := .created d }]) := by
  refine ⟨?_, ?_, ?_⟩
  · intro env h
    simp [sendEmail, h]
  · intro env
    unfold sendEmail
    rcases env.apiKey with _ | k
    · exact Or.inr ⟨_, rfl⟩
    · rcases h : env.apiResult with d | e
      · exact Or.inl ⟨d, by simp [h]⟩
      · exact Or.inr ⟨e, by simp [h]⟩
  · intro env db req hlog hne hph hpw
    have hfe : (db.users.find? fun u => u.email == req.email) = none := by
      refine List.find?_eq_none.mpr fun x hx => ?_
      simpa using hne x hx
    have hdup : (if jsTruthyOptStr req.phone then
        (db.users.find? fun u =>
          u.phone == normalizePhoneLookup (req.phone.getD "")).isSome
      else false) = false := by
      by_cases h : jsTruthyOptStr req.phone = true
      · have : (db.users.find? fun u =>
            u.phone == normalizePhoneLookup (req.phone.getD "")) = none := by
          refine List.find?_eq_none.mpr fun x hx => ?_
          simpa using hph h x hx
        simp [h, this]
      · simp [Bool.eq_false_iff.mpr h]
    exact ⟨_, by simp [createAgent, hfe, hdup, hpw, hlog]; rfl⟩

/-- Closed instance of `C6_sendEmail_total_create_resilient`: with no
API key configured `sendEmail` fails gracefully, and `createAgent` still
answers 201 when both the welcome e-mail and the push notification
fail. -/
theorem C6_sendEmail_total_create_resilient_witness :
    (sendEmail { apiKey := none, apiResult := .error "boom" } =
      .failure "BREVO_API_KEY is not defined in environment variables") ∧
    (∃ d, (createAgent
        { now := 5, logFails := none
          emailEnv := { apiKey := none, apiResult := .error "boom" }
          pushFails := some "push down" }
        sampleDb sampleCreateReq).responses =
      [{ status := 201, success := some true
         message := some "Agent created successfully", data := .created d }]) := by
  constructor
  · exact C6_sendEmail_total_create_resilient.1
      { apiKey := none, apiResult := .error "boom" } rfl
  · exact C6_sendEmail_total_create_resilient.2.2
      { now := 5, logFails := none
        emailEnv := { apiKey := none, apiResult := .error "boom" }
        pushFails := some "push down" }
      sampleDb sampleCreateReq rfl (by decide) (by decide) (by decide)

/-- C5: `sendTicketUpdateStatusEmail` sends exactly one e-mail, to the
customer, whose subject is selected by the lowercased ticket status:
`reopen`/`reopened`, `pending`, `in_progress`, `resolved` and `closed`
map to their dedicated subjects and anything else to the fallback; the
selection depends on the status only through its lowercasing. -/
theorem C5_ticket_status_email (env : EmailEnv) (ticket : TicketDoc)
    (customer : CustomerDoc) :
    (sendTicketUpdateStatusEmail env ticket customer).results.length = 1 ∧
    (sendTicketUpdateStatusEmail env ticket customer).emailCalls.length = 1 ∧
    ((sendTicketUpdateStatusEmail env ticket customer).emailCalls.map
      (fun c => c.sendTo) = [customer.email]) ∧
    ((jsToLower ticket.status = "reopen" ∨ jsToLower ticket.status = "reopened") →
      (sendTicketUpdateStatusEmail env ticket customer).emailCalls =
        [{ sendTo := customer.email
           subject := "Ticket Reopened - " ++ jsOrOptStr ticket.ticketNumber ticket._id }]) ∧
    (jsToLower ticket.status = "pending" →
      (sendTicketUpdateStatusEmail env ticket customer).emailCalls =
        [{ sendTo := customer.email
           subject := "Ticket Pending - " ++ jsOrOptStr ticket.ticketNumber ticket._id }]) ∧
    (jsToLower ticket.status = "in_progress" →
      (sendTicketUpdateStatusEmail env ticket customer).emailCalls =
        [{ sendTo := customer.email
           subject := "Ticket In Progress - " ++ jsOrOptStr ticket.ticketNumber ticket._id }]) ∧
    (jsToLower ticket.status = "resolved" →
      (sendTicketUpdateStatusEmail env ticket customer).emailCalls =
        [{ sendTo := customer.email
           subject := "Ticket Resolved - " ++ jsOrOptStr ticket.ticketNumber ticket._id }]) ∧
    (jsToLower ticket.status = "closed" →
      (sendTicketUpdateStatusEmail env ticket customer).emailCalls =
        [{ sendTo := customer.email
           subject := "Ticket Closed - " ++ jsOrOptStr ticket.ticketNumber ticket._id }]) ∧
    (jsToLower ticket.status ∉
        ["reopen", "reopened", "pending", "in_progress", "resolved", "closed"] →
      (sendTicketUpdateStatusEmail env ticket customer).emailCalls =
        [{ sendTo := customer.email
           subject := "Ticket Status Updated - " ++ jsOrOptStr ticket.ticketNumber ticket._id }]) ∧
    (∀ t2 : TicketDoc, jsToLower t2.status = jsToLower ticket.status →
      t2.ticketNumber = ticket.ticketNumber → t2._id = ticket._id →
      (sendTicketUpdateStatusEmail env t2 customer).emailCalls =
        (sendTicketUpdateStatusEmail env ticket customer).emailCalls) := by
  refine ⟨rfl, rfl, rfl, ?_, ?_, ?_, ?_, ?_, ?_, ?_⟩
  · rintro (h | h) <;>
      simp [sendTicketUpdateStatusEmail, ticketStatusSubject, h]
  · intro h
    simp [sendTicketUpdateStatusEmail, ticketStatusSubject, h]
  · intro h
    simp [sendTicketUpdateStatusEmail, ticketStatusSubject, h]
  · intro h
    simp [sendTicketUpdateStatusEmail, ticketStatusSubject, h]
  · intro h
    simp [sendTicketUpdateStatusEmail, ticketStatusSubject, h]
  · intro h
    simp only [List.mem_cons, List.mem_singleton, not_or] at h
    obtain ⟨h1, h2, h3, h4, h5, h6⟩ := h
    simp [sendTicketUpdateStatusEmail, ticketStatusSubject, h1, h2, h3, h4, h5]
    simp [h6]
  · intro t2 hs hn hi
    simp [sendTicketUpdateStatusEmail, hs, hn, hi]

/-- Closed instance of `C5_ticket_status_email` exercising a mixed-case
reopened status, a closed status, and an unknown status. -/
theorem C5_ticket_status_email_witness :
    ((sendTicketUpdateStatusEmail sampleEmailEnv
        { status := "ReOpened", ticketNumber := some "TKT-9", _id := "z1" }
        { name := some "Cust", email := "c@x.com" }).emailCalls =
      [{ sendTo := "c@x.com", subject := "Ticket Reopened - TKT-9" }]) ∧
    ((sendTicketUpdateStatusEmail sampleEmailEnv
        { status := "CLOSED", ticketNumber := none, _id := "z2" }
        { name := none, email := "d@x.com" }).emailCalls =
      [{ sendTo := "d@x.com", subject := "Ticket Closed - z2" }]) ∧
    ((sendTicketUpdateStatusEmail sampleEmailEnv
        { status := "escalated", ticketNumber := some "TKT-10", _id := "z3" }
        { name := some "Cust", email := "e@x.com" }).emailCalls =
      [{ sendTo := "e@x.com", subject := "Ticket Status Updated - TKT-10" }]) := by
  refine ⟨?_, ?_, ?_⟩
  · exact (C5_ticket_status_email sampleEmailEnv
      { status := "ReOpened", ticketNumber := some "TKT-9", _id := "z1" }
      { name := some "Cust", email := "c@x.com" }).2.2.2.1 (Or.inr (by decide))
  · exact (C5_ticket_status_email sampleEmailEnv
      { status := "CLOSED", ticketNumber := none, _id := "z2" }
      { name := none, email := "d@x.com" }).2.2.2.2.2.2.2.1 (by decide)
  · exact (C5_ticket_status_email sampleEmailEnv
      { status := "escalated", ticketNumber := some "TKT-10", _id := "z3" }
      { name := some "Cust", email := "e@x.com" }).2.2.2.2.2.2.2.2.1 (by decide)

/-- Projection fact used when relating rows to their source documents. -/
theorem toAgentData_createdAt (u : UserDoc) :
    (toAgentData u).createdAt = u.createdAt := rfl

/-- C4: the agents-list query selects exactly the stored users with role
`agent` and `isDeleted` false that match the (case-insensitive regex)
search on name, e-mail or phone — all of them when the search is empty
or absent — and the response's total and rows are drawn from exactly
that selection. -/
theorem C4_agents_list_search (m : String → String → Bool) (db : Db)
    (q : ListQuery) (u : UserDoc) :
    (u ∈ agentsListSelect m db (jsOrOptStr q.search "") ↔
      u ∈ db.users ∧ u.role = "agent" ∧ u.isDeleted = false ∧
        (jsOrOptStr q.search "" = "" ∨
          (m (jsOrOptStr q.search "") u.name ∨ m (jsOrOptStr q.search "") u.email ∨
            m (jsOrOptStr q.search "") u.phone))) ∧
    (∃ pg rows, (getAgentsList m db q).responses =
      [{ status := 200, success := some true
         message := some "Agents list fetched successfully"
         data := .list pg rows }] ∧
      pg.totalAgents = (agentsListSelect m db (jsOrOptStr q.search "")).length ∧
      ∀ r ∈ rows, ∃ v ∈ agentsListSelect m db (jsOrOptStr q.search ""),
        r = toAgentData v) := by
  constructor
  · by_cases hs : jsOrOptStr q.search "" = ""
    · rw [hs]
      simp [agentsListSelect, List.mem_filter]
    · unfold agentsListSelect
      rw [if_pos hs]
      simp [List.mem_filter, hs]
      tauto
  · refine ⟨_, _, rfl, rfl, ?_⟩
    intro r hr
    rw [List.mem_map] at hr
    obtain ⟨v, hv, hrv⟩ := hr
    refine ⟨v, ?_, hrv.symm⟩
    have hv1 : v ∈ sortByCreatedAtDesc (agentsListSelect m db (jsOrOptStr q.search "")) := by
      unfold mongoLimit mongoSkip at hv
      exact (List.drop_sublist _ _).mem ((List.take_sublist _ _).mem hv)
    exact (List.perm_insertionSort createdDescRel _).mem_iff.mp hv1

/-- Closed instance of `C4_agents_list_search`: with a regex engine that
matches nothing, searching hides the stored agent, and the stored
non-agent never appears. -/
theorem C4_agents_list_search_witness :
    (¬ (sampleAgent ∈ agentsListSelect (fun _ _ => false) sampleDb
        (jsOrOptStr (some "zzz") ""))) ∧
    (sampleAgent ∈ agentsListSelect (fun _ _ => false) sampleDb
        (jsOrOptStr none "")) ∧
    (¬ (sampleUser1 ∈ agentsListSelect (fun _ _ => false) sampleDb
        (jsOrOptStr none ""))) := by
  refine ⟨?_, ?_, ?_⟩
  · intro h
    have := (C4_agents_list_search (fun _ _ => false) sampleDb
      { page := none, limit := none, search := some "zzz" } sampleAgent).1.mp h
    rcases this.2.2.2 with h1 | h1
    · exact absurd h1 (by decide)
    · simp at h1
  · exact (C4_agents_list_search (fun _ _ => false) sampleDb
      { page := none, limit := none, search := none } sampleAgent).1.mpr
      ⟨by decide, by decide, by decide, Or.inl (by decide)⟩
  · intro h
    have := (C4_agents_list_search (fun _ _ => false) sampleDb
      { page := none, limit := none, search := none } sampleUser1).1.mp h
    exact absurd this.2.1 (by decide)

/-- Projection fact used when relating export rows to their source
documents. -/
theorem toExportRow_createdAt (db : Db) (u : UserDoc) :
    (toExportRow db u).createdAt = u.createdAt := rfl

/-- C8: the export query keeps every user with role `agent` that matches
the optional search — with no `isDeleted` condition, so soft-deleted
agents are exported (and counted) although `getAgentsList` excludes
them — and the export response is the whole sorted selection, with no
pagination, ordered by `createdAt` descending. -/
theorem C8_export_includes_deleted (m : String → String → Bool) (db : Db)
    (search : Option String) :
    (∀ u, u ∈ exportAgentsSelect m db (jsOrOptStr search "") ↔
      u ∈ db.users ∧ u.role = "agent" ∧
        (jsOrOptStr search "" = "" ∨
          (m (jsOrOptStr search "") u.name ∨ m (jsOrOptStr search "") u.email ∨
            m (jsOrOptStr search "") u.phone))) ∧
    (∀ u ∈ db.users, u.role = "agent" → u.isDeleted = true →
      u ∈ exportAgentsSelect m db "" ∧ u ∉ agentsListSelect m db "") ∧
    (∃ rows, (exportAgents m db search).responses =
      [{ status := 200, success := some true
         message := some "Agents data exported successfully"
         data := .export rows.length rows }] ∧
      rows = (sortByCreatedAtDesc
        (exportAgentsSelect m db (jsOrOptStr search ""))).map (toExportRow db) ∧
      rows.Pairwise fun x y => y.createdAt ≤ x.createdAt) := by
  refine ⟨?_, ?_, ?_⟩
  · intro u
    by_cases hs : jsOrOptStr search "" = ""
    · rw [hs]
      simp [exportAgentsSelect, List.mem_filter]
    · unfold exportAgentsSelect
      rw [if_pos hs]
      simp [List.mem_filter, hs]
      tauto
  · intro u hu hrole hdel
    constructor
    · simp [exportAgentsSelect, List.mem_filter, hu, hrole]
    · simp [agentsListSelect, List.mem_filter, hdel]
  · refine ⟨_, rfl, rfl, ?_⟩
    have hsorted : (sortByCreatedAtDesc
        (exportAgentsSelect m db (jsOrOptStr search ""))).Pairwise createdDescRel :=
      List.sorted_insertionSort createdDescRel _
    refine List.pairwise_map.mpr ?_
    exact hsorted.imp fun h => h

/-- Closed instance of `C8_export_includes_deleted`: after soft-deleting
the sample agent, it still shows up in the export selection (and the
export count) while the list selection drops it. -/
theorem C8_export_includes_deleted_witness :
    ({ sampleAgent with isDeleted := true, deletedAt := some 5 } ∈
      exportAgentsSelect (fun _ _ => false) (deleteAgent sampleEnv sampleDb 2).db "") ∧
    ({ sampleAgent with isDeleted := true, deletedAt := some 5 } ∉
      agentsListSelect (fun _ _ => false) (deleteAgent sampleEnv sampleDb 2).db "") ∧
    (∃ rows, (exportAgents (fun _ _ => false) (deleteAgent sampleEnv sampleDb 2).db
        none).responses =
      [{ status := 200, success := some true
         message := some "Agents data exported successfully"
         data := .export rows.length rows }] ∧
      rows.length = 1) := by
  have h := C8_export_includes_deleted (fun _ _ => false)
    (deleteAgent sampleEnv sampleDb 2).db none
  have hmem := h.2.1 { sampleAgent with isDeleted := true, deletedAt := some 5 }
    (by decide) (by decide) (by decide)
  refine ⟨hmem.1, hmem.2, ?_⟩
  obtain ⟨rows, hresp, hrows, _⟩ := h.2.2
  exact ⟨rows, hresp, by rw [hrows]; decide⟩

/-- Lemma: `Math.ceil(a / L)` for a positive integer `L` agrees with
natural-number ceiling division. -/
theorem jsMathCeilDiv_natCast (a L : Nat) (hL : 1 ≤ L) :
    jsMathCeilDiv a (L : Int) = ((a + L - 1) / L : Nat) := by
  have hL0 : (0 : Int) < (L : Int) := by exact_mod_cast hL
  have hdm := Nat.div_add_mod (a + L - 1) L
  have hmod : (a + L - 1) % L < L := Nat.mod_lt _ (by omega)
  set q := (a + L - 1) / L with hq
  have h1 : a ≤ L * q := by omega
  have h2 : L * q < a + L := by omega
  have hconj := (@Int.ediv_emod_unique (-(a : Int)) (L : Int)
      ((L * q : Nat) - (a : Int)) (-(q : Int)) hL0).mpr
    ⟨by push_cast; ring, by omega, by omega⟩
  unfold jsMathCeilDiv
  rw [if_pos hL0, hconj.1]
  omega

/-- C3: `getAgentsList` defaults its page to 1 and its limit to 10 when
the parameter is absent, non-numeric or parses to 0; and for positive
parsed page and limit it skips `(page-1)*limit` agents of the selection
sorted by `createdAt` descending, returns at most `limit` rows, and
reports `totalPages = ceil(total/limit)`, `hasNextPage ↔ page <
totalPages`, `hasPrevPage ↔ page > 1` and `currentPage = page`. -/
theorem C3_agents_list_pagination (m : String → String → Bool) (db : Db)
    (q : ListQuery)
    (hp : 1 ≤ jsParseIntOr q.page 1) (hl : 1 ≤ jsParseIntOr q.limit 10) :
    (∀ d : Int, jsParseIntOr none d = d) ∧
    (∀ s d, jsParseInt s = none → jsParseIntOr (some s) d = d) ∧
    (∀ s d, jsParseInt s = some 0 → jsParseIntOr (some s) d = d) ∧
    (∃ pg rows, (getAgentsList m db q).responses =
        [{ status := 200, success := some true
           message := some "Agents list fetched successfully"
           data := .list pg rows }] ∧
      rows = (((sortByCreatedAtDesc
          (agentsListSelect m db (jsOrOptStr q.search ""))).drop
            (((jsParseIntOr q.page 1).toNat - 1) * (jsParseIntOr q.limit 10).toNat)).take
            (jsParseIntOr q.limit 10).toNat).map toAgentData ∧
      rows.length ≤ (jsParseIntOr q.limit 10).toNat ∧
      pg.totalAgents = (agentsListSelect m db (jsOrOptStr q.search "")).length ∧
      pg.totalPages = (((pg.totalAgents + (jsParseIntOr q.limit 10).toNat - 1) /
          (jsParseIntOr q.limit 10).toNat : Nat) : Int) ∧
      pg.currentPage = jsParseIntOr q.page 1 ∧
      pg.limit = jsParseIntOr q.limit 10 ∧
      (pg.hasNextPage = true ↔ pg.currentPage < pg.totalPages) ∧
      (pg.hasPrevPage = true ↔ 1 < pg.currentPage) ∧
      rows.Pairwise fun x y => y.createdAt ≤ x.createdAt) := by
  refine ⟨fun d => rfl, ?_, ?_, ?_⟩
  · intro s d h
    simp [jsParseIntOr, h]
  · intro s d h
    simp [jsParseIntOr, h]
  refine ⟨_, _, rfl, ?_, ?_, rfl, ?_, rfl, rfl, ?_, ?_, ?_⟩
  · unfold mongoLimit mongoSkip
    have hp' : jsParseIntOr q.page 1 - 1 =
        (((jsParseIntOr q.page 1).toNat - 1 : Nat) : Int) := by omega
    have hl' : jsParseIntOr q.limit 10 =
        (((jsParseIntOr q.limit 10).toNat : Nat) : Int) := by omega
    rw [hp', hl', ← Nat.cast_mul, Int.toNat_natCast, Int.toNat_natCast]
  · unfold mongoLimit mongoSkip
    simp only [List.length_map, List.length_take]
    exact min_le_left _ _
  · have hl1 : 1 ≤ (jsParseIntOr q.limit 10).toNat := by omega
    have hl' : jsParseIntOr q.limit 10 =
        (((jsParseIntOr q.limit 10).toNat : Nat) : Int) := by omega
    dsimp only
    rw [hl', jsMathCeilDiv_natCast _ _ hl1]
    simp only [Int.toNat_natCast]
  · exact decide_eq_true_iff
  · exact decide_eq_true_iff
  · unfold mongoLimit mongoSkip
    refine List.pairwise_map.mpr ?_
    have hs := List.sorted_insertionSort createdDescRel
      (agentsListSelect m db (jsOrOptStr q.search ""))
    exact List.Pairwise.sublist
      ((List.take_sublist _ _).trans (List.drop_sublist _ _)) hs

/-- Closed instance of `C3_agents_list_pagination`: page 2 with limit 1
over the sample database. -/
theorem C3_agents_list_pagination_witness :
    ∃ pg rows,
      (getAgentsList (fun _ _ => false) sampleDb
        { page := some "2", limit := some "1", search := none }).responses =
        [{ status := 200, success := some true
           message := some "Agents list fetched successfully"
           data := .list pg rows }] ∧
      pg.totalAgents = 1 ∧ pg.currentPage = 2 ∧ rows.length ≤ 1 := by
  obtain ⟨pg, rows, hresp, hrows, hlen, htot, htp, hcur, hlim, hnext, hprev, hsort⟩ :=
    (C3_agents_list_pagination (fun _ _ => false) sampleDb
      { page := some "2", limit := some "1", search := none }
      (by decide) (by decide)).2.2.2
  refine ⟨pg, rows, hresp, ?_, ?_, ?_⟩
  · rw [htot]; decide
  · rw [hcur]; decide
  · have h1 : (jsParseIntOr (some "1") 10).toNat = 1 := by decide
    rw [h1] at hlen
    exact hlen

/-- A list unchanged by `dropWhile` stays unchanged when anything is
appended behind it. -/
theorem dropWhile_append_of_stable (p : Char → Bool) (f x : List Char)
    (hne : f ≠ []) (hf : f.dropWhile p = f) :
    (f ++ x).dropWhile p = f ++ x := by
  cases f with
  | nil => exact absurd rfl hne
  | cons c cs =>
    have hpc : p c = false := by
      by_contra h
      have hpc : p c = true := by simpa using h
      rw [List.dropWhile_cons, if_pos hpc] at hf
      have hlen := congrArg List.length hf
      simp only [List.length_cons] at hlen
      have hle : (List.dropWhile p cs).length ≤ cs.length :=
        (List.dropWhile_sublist p).length_le
      omega
    rw [List.cons_append, List.dropWhile_cons, if_neg (by simp [hpc])]

/-- Lemma: `splitSpL` never returns the empty list of segments. -/
theorem splitSpL_ne_nil (l : List Char) : splitSpL l ≠ [] := by
  induction l with
  | nil => simp [splitSpL]
  | cons c cs ih =>
    simp only [splitSpL]
    split
    · simp
    · split
      · simp
      · simp

/-- The segment list always starts with something. -/
theorem splitSpL_exists_cons (l : List Char) : ∃ r rs, splitSpL l = r :: rs := by
  cases h : splitSpL l with
  | nil => exact absurd h (splitSpL_ne_nil l)
  | cons r rs => exact ⟨r, rs, rfl⟩

/-- Splitting a space-free list yields that single segment. -/
theorem splitSpL_eq_single (f : List Char) (hf : ' ' ∉ f) : splitSpL f = [f] := by
  induction f with
  | nil => rfl
  | cons c cs ih =>
    simp only [List.mem_cons, not_or] at hf
    simp only [splitSpL]
    rw [if_neg fun h => hf.1 h.symm, ih hf.2]

/-- Splitting at the first space: a space-free prefix becomes the first
segment. -/
theorem splitSpL_append_cons (f l : List Char) (hf : ' ' ∉ f) :
    splitSpL (f ++ ' ' :: l) = f :: splitSpL l := by
  induction f with
  | nil => simp [splitSpL]
  | cons c cs ih =>
    simp only [List.mem_cons, not_or] at hf
    simp only [List.cons_append, splitSpL, List.append_eq]
    rw [if_neg fun h => hf.1 h.symm, ih hf.2]

/-- Lemma: `join(' ')` inverts `split(' ')`. -/
theorem joinSpL_splitSpL (l : List Char) : joinSpL (splitSpL l) = l := by
  induction l with
  | nil => rfl
  | cons c cs ih =>
    obtain ⟨r, rs, hr⟩ := splitSpL_exists_cons cs
    by_cases hc : c = ' '
    · subst hc
      simp only [splitSpL, if_pos rfl]
      rw [hr]
      show ' ' :: joinSpL (r :: rs) = ' ' :: cs
      rw [← hr, ih]
    · simp only [splitSpL, if_neg hc]
      rw [hr]
      have hj : joinSpL ((c :: r) :: rs) = c :: joinSpL (r :: rs) := by
        cases rs <;> rfl
      rw [hj, ← hr, ih]

/-- Trimming fixes a junction of a whitespace-stable head and tail. -/
theorem jsTrimL_append_space_cons (f l : List Char)
    (hfne : f ≠ []) (hfs : f.dropWhile jsIsSpaceChar = f)
    (hlne : l ≠ []) (hle : (l.reverse.dropWhile jsIsSpaceChar).reverse = l) :
    jsTrimL (f ++ ' ' :: l) = f ++ ' ' :: l := by
  unfold jsTrimL jsTrimStartL jsTrimEndL
  rw [dropWhile_append_of_stable _ _ _ hfne hfs]
  have hrev : (f ++ ' ' :: l).reverse = l.reverse ++ (' ' :: f.reverse) := by
    simp
  rw [hrev]
  have hlrs : l.reverse.dropWhile jsIsSpaceChar = l.reverse := by
    have := congrArg List.reverse hle
    simpa using this
  have hlrne : l.reverse ≠ [] := by simpa using hlne
  rw [dropWhile_append_of_stable _ _ _ hlrne hlrs, ← hrev, List.reverse_reverse]

/-- Trimming eats the dangling space produced by an empty last name. -/
theorem jsTrimL_append_space_nil (f : List Char)
    (hfne : f ≠ []) (hfs : f.dropWhile jsIsSpaceChar = f)
    (hfe : (f.reverse.dropWhile jsIsSpaceChar).reverse = f) :
    jsTrimL (f ++ [' ']) = f := by
  unfold jsTrimL jsTrimStartL jsTrimEndL
  rw [dropWhile_append_of_stable _ _ _ hfne hfs]
  have hrev : (f ++ [' ']).reverse = ' ' :: f.reverse := by simp
  rw [hrev, List.dropWhile_cons, if_pos (by decide)]
  have hfr : f.reverse.dropWhile jsIsSpaceChar = f.reverse := by
    have := congrArg List.reverse hfe
    simpa using this
  rw [hfr, List.reverse_reverse]

/-- On the success path `createAgent` appends exactly the
`createdAgentDoc` to the `User` collection. -/
theorem createAgent_success_users (env : Env) (db : Db) (req : CreateReq)
    (hne : ∀ u ∈ db.users, u.email ≠ req.email)
    (hph : jsTruthyOptStr req.phone = true →
      ∀ u ∈ db.users, u.phone ≠ normalizePhoneLookup (req.phone.getD ""))
    (hpw : jsTruthyOptStr req.password = true) :
    (createAgent env db req).db.users = db.users ++ [createdAgentDoc env db req] := by
  have hfe : (db.users.find? fun u => u.email == req.email) = none := by
    refine List.find?_eq_none.mpr fun x hx => ?_
    simpa using hne x hx
  have hdup : (if jsTruthyOptStr req.phone then
      (db.users.find? fun u =>
        u.phone == normalizePhoneLookup (req.phone.getD "")).isSome
    else false) = false := by
    by_cases h : jsTruthyOptStr req.phone = true
    · have : (db.users.find? fun u =>
          u.phone == normalizePhoneLookup (req.phone.getD "")) = none := by
        refine List.find?_eq_none.mpr fun x hx => ?_
        simpa using hph h x hx
      simp [h, this]
    · simp [Bool.eq_false_iff.mpr h]
  cases h : env.logFails <;> simp [createAgent, hfe, hdup, hpw, h]

/-- C9 (amended): `createAgent` stores the trimmed concatenation of
first name, space and last name, and `getAgent` splits it back at the
first space; when the first name is non-empty, space-free and free of
leading/trailing whitespace and the last name has no trailing
whitespace, creating then fetching returns the original pair; and some
first names containing a space round-trip to a different pair. -/
theorem C9_name_round_trip (env : Env) (db : Db) (req : CreateReq)
    (hne : ∀ u ∈ db.users, u.email ≠ req.email)
    (hph : jsTruthyOptStr req.phone = true →
      ∀ u ∈ db.users, u.phone ≠ normalizePhoneLookup (req.phone.getD ""))
    (hpw : jsTruthyOptStr req.password = true)
    (hfresh : ∀ u ∈ db.users, u._id ≠ db.nextId)
    (hf0 : req.firstName ≠ "")
    (hfsp : ' ' ∉ req.firstName.toList)
    (hfs : jsTrimStart req.firstName = req.firstName)
    (hfe : jsTrimEnd req.firstName = req.firstName)
    (hle : jsTrimEnd req.lastName = req.lastName) :
    ((getAgent (createAgent env db req).db db.nextId).responses =
        [{ status := 200, success := some true, message := none
           data := .agent (toAgentData (createdAgentDoc env db req)) }] ∧
      (toAgentData (createdAgentDoc env db req)).firstName = req.firstName ∧
      (toAgentData (createdAgentDoc env db req)).lastName = req.lastName) ∧
    (∃ (req2 : CreateReq) (ad2 : AgentData), ' ' ∈ req2.firstName.toList ∧
      (getAgent (createAgent sampleEnv emptyDb req2).db 0).responses =
        [{ status := 200, success := some true, message := none
           data := .agent ad2 }] ∧
      (ad2.firstName, ad2.lastName) ≠ (req2.firstName, req2.lastName)) := by
  constructor
  · have husers := createAgent_success_users env db req hne hph hpw
    have hfindnew : ((createAgent env db req).db.users.find? fun u =>
        u._id == db.nextId && u.role == "agent") =
        some (createdAgentDoc env db req) := by
      rw [husers, List.find?_append]
      have h1 : (db.users.find? fun u =>
          u._id == db.nextId && u.role == "agent") = none := by
        refine List.find?_eq_none.mpr fun x hx => ?_
        simp only [Bool.and_eq_true, beq_iff_eq]
        intro hcon
        exact hfresh x hx hcon.1
      rw [h1]
      simp [createdAgentDoc]
    have hFl : req.firstName.toList ≠ [] := fun h => hf0 (congrArg String.mk h)
    have hfsl : req.firstName.toList.dropWhile jsIsSpaceChar =
        req.firstName.toList := congrArg String.toList hfs
    have hfel : (req.firstName.toList.reverse.dropWhile jsIsSpaceChar).reverse =
        req.firstName.toList := congrArg String.toList hfe
    have hlel : (req.lastName.toList.reverse.dropWhile jsIsSpaceChar).reverse =
        req.lastName.toList := congrArg String.toList hle
    by_cases hl0 : req.lastName = ""
    · have hname : (createdAgentDoc env db req).name.toList =
          req.firstName.toList := by
        show jsTrimL ((req.firstName ++ " " ++ req.lastName).toList) = _
        have h1 : (req.firstName ++ " " ++ req.lastName).toList =
            req.firstName.toList ++ [' '] := by
          rw [hl0]
          show (req.firstName.toList ++ [' ']) ++ [] = _
          simp
        rw [h1, jsTrimL_append_space_nil _ hFl hfsl hfel]
      refine ⟨by simp [getAgent, hfindnew], ?_, ?_⟩
      · show String.mk
            ((splitSpL (createdAgentDoc env db req).name.toList).headD []) =
          req.firstName
        rw [hname, splitSpL_eq_single _ hfsp]
        rfl
      · show String.mk
            (joinSpL ((splitSpL (createdAgentDoc env db req).name.toList).drop 1)) =
          req.lastName
        rw [hname, splitSpL_eq_single _ hfsp, hl0]
        rfl
    · have hLl : req.lastName.toList ≠ [] := fun h => hl0 (congrArg String.mk h)
      have hname : (createdAgentDoc env db req).name.toList =
          req.firstName.toList ++ ' ' :: req.lastName.toList := by
        show jsTrimL ((req.firstName ++ " " ++ req.lastName).toList) = _
        have h1 : (req.firstName ++ " " ++ req.lastName).toList =
            req.firstName.toList ++ ' ' :: req.lastName.toList := by
          show (req.firstName.toList ++ [' ']) ++ req.lastName.toList = _
          simp
        rw [h1, jsTrimL_append_space_cons _ _ hFl hfsl hLl hlel]
      refine ⟨by simp [getAgent, hfindnew], ?_, ?_⟩
      · show String.mk
            ((splitSpL (createdAgentDoc env db req).name.toList).headD []) =
          req.firstName
        rw [hname, splitSpL_append_cons _ _ hfsp]
        rfl
      · show String.mk
            (joinSpL ((splitSpL (createdAgentDoc env db req).name.toList).drop 1)) =
          req.lastName
        rw [hname, splitSpL_append_cons _ _ hfsp]
        show String.mk (joinSpL (splitSpL req.lastName.toList)) = req.lastName
        rw [joinSpL_splitSpL]
        rfl
  · refine ⟨{ firstName := "a b", lastName := "c", email := "e", phone := none
              password := some "p", categoryId := none },
      { _id := 0, firstName := "a", lastName := "b c", name := "a b c"
        email := "e", phone := "", role := "agent", categoryIds := []
        status := "offline", isActive := true, createdAt := 5 },
      by decide, by decide, by decide⟩

/-- Counterexample to the unamended round-trip claim: firstName `"a"` is
non-empty and contains no space, lastName `" "` satisfies no further
condition in the claim, yet create-then-fetch returns lastName `""`. -/
theorem C9_name_round_trip_counterexample :
    (("a" : String) ≠ "") ∧ (' ' ∉ ("a" : String).toList) ∧
    ((getAgent (createAgent sampleEnv emptyDb
        { firstName := "a", lastName := " ", email := "e", phone := none
          password := some "p", categoryId := none }).db 0).responses =
      [{ status := 200, success := some true, message := none
         data := .agent { _id := 0, firstName := "a", lastName := "", name := "a"
                          email := "e", phone := "", role := "agent"
                          categoryIds := [], status := "offline"
                          isActive := true, createdAt := 5 } }]) ∧
    (("" : String) ≠ " ") := by decide

/-- Closed instance of `C9_name_round_trip`: the pair `("John",
"Smith")` survives the round-trip on an empty database. -/
theorem C9_name_round_trip_witness :
    ((getAgent (createAgent sampleEnv emptyDb
        { firstName := "John", lastName := "Smith", email := "e", phone := none
          password := some "p", categoryId := none }).db 0).responses =
      [{ status := 200, success := some true, message := none
         data := .agent (toAgentData (createdAgentDoc sampleEnv emptyDb
           { firstName := "John", lastName := "Smith", email := "e", phone := none
             password := some "p", categoryId := none })) }]) ∧
    (toAgentData (createdAgentDoc sampleEnv emptyDb
      { firstName := "John", lastName := "Smith", email := "e", phone := none
        password := some "p", categoryId := none })).firstName = "John" ∧
    (toAgentData (createdAgentDoc sampleEnv emptyDb
      { firstName := "John", lastName := "Smith", email := "e", phone := none
        password := some "p", categoryId := none })).lastName = "Smith" := by
  have h := C9_name_round_trip sampleEnv emptyDb
    { firstName := "John", lastName := "Smith", email := "e", phone := none
      password := some "p", categoryId := none }
    (by decide) (by decide) (by decide) (by decide) (by decide) (by decide)
    (by decide) (by decide) (by decide)
  exact ⟨h.1.1, h.1.2.1, h.1.2.2⟩
